import Mathlib

/-!
# Memori — Memory Filtering & Aggregation Engine: shallow embedding

Shallow embedding of the frontend components of the Memori audio-journal
application (`frontend/src/components/*.jsx`) and, where the repository
excerpt only ships the frontend callers, of the filtering/aggregation
engine described in the design spec (the backend that computes statistics
and performs search/filtering is not part of the excerpt; such
definitions carry a `Modelled from the spec:` doc comment).

JavaScript conventions captured here:
- an absent (`undefined`/`null`) field is `Option.none`;
- `a || b` on strings (falsy = absent or `""`) is `jsOrS`;
- timestamps are modelled as natural numbers (epoch instants); the
  locale-dependent date rendering (`toLocaleDateString`) is an injected
  parameter `fmt : Nat → String`.
-/

/-- A memory record as consumed by the frontend components
(`MemoryCard.jsx`, `MemoryModal.jsx`): JSON objects whose fields are all
optional except `id`. -/
structure MemoryRecord where
  id : String
  timestamp : Option Nat := none
  text : Option String := none
  audio_text : Option String := none
  emotion : Option String := none
  emotion_scores : List (String × ℚ) := []
  topics : List String := []
  tags : List String := []
  importance_score : Option ℚ := none
  metadata : List (String × String) := []
  deriving DecidableEq, Repr

/-- JavaScript `o || d` for string fields: an absent field and the empty
string are both falsy and fall through to the default. -/
def jsOrS (o : Option String) (d : String) : String :=
  match o with
  | none => d
  | some s => if s = "" then d else s

/-- Lower-casing of a string, character by character (`toLowerCase`). -/
def strLower (s : String) : String :=
  ⟨s.data.map Char.toLower⟩

/-- The record with only the `id` field present (all optional fields
absent): the degenerate input of the graceful-degradation contract. -/
def emptyRecord : MemoryRecord := { id := "m0" }

/-! ## MemoryCard.jsx -/

/-- `MemoryCard.getEmotionColor`: CSS class lookup on the lower-cased
emotion; absent emotion or unknown label falls back to the neutral
gray classes. -/
def cardEmotionColors : List (String × String) :=
  [("happy", "bg-yellow-50 border-yellow-200"),
   ("sad", "bg-blue-50 border-blue-200"),
   ("angry", "bg-red-50 border-red-200"),
   ("fearful", "bg-purple-50 border-purple-200"),
   ("disgust", "bg-green-50 border-green-200"),
   ("surprised", "bg-orange-50 border-orange-200"),
   ("neutral", "bg-gray-50 border-gray-200")]

/-- `MemoryCard.getEmotionColor(memory.emotion)` with the optional
chaining `emotion?.toLowerCase()`. -/
def getEmotionColor (emotion : Option String) : String :=
  match emotion with
  | none => "bg-gray-50 border-gray-200"
  | some e =>
    match cardEmotionColors.lookup (strLower e) with
    | some c => c
    | none => "bg-gray-50 border-gray-200"

/-- `MemoryCard.getFormattedDate`: absent timestamp renders the
"Unknown date" default; a present one goes through the locale formatter
`fmt` (modelling `toLocaleDateString`). -/
def getFormattedDate (fmt : Nat → String) (m : MemoryRecord) : String :=
  match m.timestamp with
  | none => "Unknown date"
  | some t => fmt t

/-- `MemoryCard.getTextContent`: `memory.text || memory.audio_text ||
'No content'`. -/
def getTextContent (m : MemoryRecord) : String :=
  jsOrS m.text (jsOrS m.audio_text "No content")

/-- `MemoryCard.truncateText`: empty in, empty out; short text is kept;
longer text is cut at `maxLength` characters with an ellipsis. -/
def truncateText (text : String) (maxLength : Nat) : String :=
  if text = "" then ""
  else if text.length ≤ maxLength then text
  else ⟨text.data.take maxLength⟩ ++ "..."

/-- The emotion badge of `MemoryCard`: `memory.emotion || 'Unknown'`. -/
def cardEmotionLabel (m : MemoryRecord) : String :=
  jsOrS m.emotion "Unknown"

/-- The topic chips of `MemoryCard` (lines 66–78): the section renders
only for a nonempty `topics`; it shows `topics.slice(0, 3)` and, when
more than 3 topics exist, a `+&#123;length - 3&#125;` overflow chip. -/
def shownTopics (topics : List String) : List String :=
  topics.take 3

/-- The overflow count chip of the `MemoryCard` topics section:
`some (length - 3)` exactly when `topics.length > 3`. -/
def topicsOverflow (topics : List String) : Option Nat :=
  if topics.length > 3 then some (topics.length - 3) else none

/-- Whether the topics section of `MemoryCard`/`MemoryModal` renders at
all (`memory.topics && memory.topics.length > 0`). -/
def topicsSectionShown (m : MemoryRecord) : Bool :=
  m.topics.length > 0

/-! ## MemoryModal.jsx -/

/-- `MemoryModal.formatDate`: same structure as the card, "Unknown
date" default for an absent timestamp. -/
def modalFormatDate (fmt : Nat → String) (timestamp : Option Nat) : String :=
  match timestamp with
  | none => "Unknown date"
  | some t => fmt t

/-- `MemoryModal.getTextContent`: `memory.text || memory.audio_text ||
'No content available'`. -/
def modalTextContent (m : MemoryRecord) : String :=
  jsOrS m.text (jsOrS m.audio_text "No content available")

/-- The emotion chip of `MemoryModal`: `memory.emotion || 'Unknown'`. -/
def modalEmotionLabel (m : MemoryRecord) : String :=
  jsOrS m.emotion "Unknown"

/-- The importance chip of `MemoryModal`: rendered only when
`memory.importance_score !== undefined`, showing the rounded
percentage (`Math.round(score * 100)`). -/
def modalImportanceChip (m : MemoryRecord) : Option ℤ :=
  m.importance_score.map (fun s => ⌊s * 100 + 1/2⌋)

/-- The tags section of `MemoryModal`: rendered only for a nonempty
`tags` list. -/
def modalTagsSection (m : MemoryRecord) : Option (List String) :=
  if m.tags.length > 0 then some m.tags else none

/-- The topics section of `MemoryModal`: rendered only for a nonempty
`topics` list. -/
def modalTopicsSection (m : MemoryRecord) : Option (List String) :=
  if m.topics.length > 0 then some m.topics else none

/-- The emotion-analysis section of `MemoryModal`: rendered only when
`emotion_scores` has at least one key. -/
def modalScoresSection (m : MemoryRecord) : Option (List (String × ℚ)) :=
  if m.emotion_scores.length > 0 then some m.emotion_scores else none

/-- The metadata section of `MemoryModal`: rendered only when
`metadata` has at least one key; displayed verbatim. -/
def modalMetadataSection (m : MemoryRecord) : Option (List (String × String)) :=
  if m.metadata.length > 0 then some m.metadata else none

/-! ## StatsCard.jsx -/

/-- The stats object handed to `StatsCard` (shape of
`GET /memories/stats` or of the `MemoryExplorer` fallback); every field
may be missing from the JSON object. -/
structure StatsProps where
  totalMemories : Option Nat := none
  topEmotion : Option String := none
  topTopic : Option String := none
  avgImportance : Option ℚ := none
  lastUpload : Option Nat := none
  recentEmotions : Option (List String) := none
  deriving DecidableEq, Repr

/-- `StatsCard` destructuring default: `totalMemories = 0`. -/
def statsTotalMemories (s : StatsProps) : Nat :=
  s.totalMemories.getD 0

/-- `StatsCard` destructuring default: `topEmotion = 'N/A'`. -/
def statsTopEmotion (s : StatsProps) : String :=
  s.topEmotion.getD "N/A"

/-- `StatsCard` destructuring default: `topTopic = 'N/A'`. -/
def statsTopTopic (s : StatsProps) : String :=
  s.topTopic.getD "N/A"

/-- `StatsCard` destructuring default: `avgImportance = 0`. -/
def statsAvgImportance (s : StatsProps) : ℚ :=
  s.avgImportance.getD 0

/-- `StatsCard.formatDate(lastUpload)`: 'Never' for an absent
last-upload instant. -/
def statsLastUploadDisplay (fmt : Nat → String) (s : StatsProps) : String :=
  match s.lastUpload with
  | none => "Never"
  | some t => fmt t

/-- `StatsCard` destructuring default: `recentEmotions = []` (and the
section renders only when the list is nonempty). -/
def statsRecentEmotions (s : StatsProps) : List String :=
  s.recentEmotions.getD []

/-- The stats object with every field missing, as when the component
receives `&#123;&#125;`. -/
def emptyStats : StatsProps := {}

/-! ## FilterPanel.jsx -/

/-- A filter configuration: the JS object held in `MemoryExplorer`
state, a partial map from dimension names (`"emotion"`, `"topic"`,
`"dateRange"`, `"search"`) to string values. -/
def FilterConfiguration : Type := String → Option String

/-- `FilterPanel.handleFilterChange`: the object spread
`&#123;...filters, [filterType]: value&#125;` — the chosen dimension is
overwritten, every other key kept. -/
def handleFilterChange (filters : FilterConfiguration) (filterType : String)
    (value : String) : FilterConfiguration :=
  fun k => if k = filterType then some value else filters k

/-- `FilterPanel.resetFilters`: replaces the configuration with the
empty object `&#123;&#125;`. -/
def resetFilters : FilterConfiguration :=
  fun _ => none

/-! ## MemoryExplorer.jsx -/

/-- The hard-coded demo list `loadMemories` substitutes on a fetch
failure. -/
def demoMemories : List MemoryRecord :=
  [{ id := "1", emotion := some "happy",
     audio_text := some "This is a happy memory." },
   { id := "2", emotion := some "sad",
     audio_text := some "This is a sad memory." }]

/-- The view state `loadMemories` writes: the error banner and the
displayed memory list. -/
structure ExplorerView where
  error : Option String
  memories : List MemoryRecord
  deriving DecidableEq, Repr

/-- `MemoryExplorer.loadMemories`: the `fetchMemories` call either
resolves with a record list or throws (a rejected fetch and a non-ok
HTTP response both surface as the caught exception, since
`fetchMemories` re-throws on `!response.ok`). On success the fetched
data replaces the list and the error is cleared; on failure the error
message is set and the fixed demo list replaces whatever was shown. -/
def loadMemoriesStep (prev : List MemoryRecord)
    (result : Except String (List MemoryRecord)) : ExplorerView :=
  match prev, result with
  | _, Except.ok data => { error := none, memories := data }
  | _, Except.error _ =>
    { error := some "Failed to load memories. Please try again later.",
      memories := demoMemories }

/-- `MemoryExplorer.loadStats`: on success the fetched stats object is
stored; on failure the fixed fallback
`&#123;totalMemories: memories.length, topEmotion: 'unknown',
avgImportance: 0&#125;` is stored. -/
def loadStatsStep (memoriesLength : Nat)
    (result : Except String StatsProps) : StatsProps :=
  match result with
  | Except.ok s => s
  | Except.error _ =>
    { totalMemories := some memoriesLength,
      topEmotion := some "unknown",
      avgImportance := some 0 }

/-! ## The engine (backend side, absent from the excerpt)

The statistics aggregator, collection filter and search matcher run in
the backend (`GET /memories`, `GET /memories/stats`), whose code is not
part of this source excerpt; the definitions below are modelled from
the design spec (§4.2–§4.4).
-/

/-- Modelled from the spec: the Collection Filter (§4.2) — the backend
filtering pass behind `GET /memories`, absent from the excerpt. It
applies the compiled predicate to the ordered record collection in one
stable pass. -/
def filterCollection (p : MemoryRecord → Bool) (l : List MemoryRecord) :
    List MemoryRecord :=
  l.filter p

/-- Maximum of a list of naturals, 0 for the empty list. -/
def natMaxL : List Nat → Nat
  | [] => 0
  | n :: ns => max n (natMaxL ns)

/-- The highest occurrence count any label reaches in `l`. -/
def maxCount (l : List String) : Nat :=
  natMaxL (l.map (fun x => l.count x))

/-- The first label of `l` (in collection order) whose occurrence count
is maximal: the deterministic, order-respecting tie-break of §4.3. -/
def firstMax (l : List String) : Option String :=
  l.find? (fun x => l.count x == maxCount l)

/-- Modelled from the spec: the Statistics Aggregator's `topEmotion`
(§4.3) — backend code absent from the excerpt. The most frequent
emotion among records with a non-absent emotion, ties resolved to the
label appearing first in collection order, `"N/A"` when no record has
an emotion. -/
def topEmotionOf (l : List MemoryRecord) : String :=
  (firstMax (l.filterMap (fun r => r.emotion))).getD "N/A"

/-- Modelled from the spec: the Statistics Aggregator's `avgImportance`
(§4.3) — backend code absent from the excerpt. The arithmetic mean of
`importance_score` over records carrying the field, `0` when none
does. -/
def avgImportanceOf (l : List MemoryRecord) : ℚ :=
  let scores := l.filterMap (fun r => r.importance_score)
  if scores.length = 0 then 0 else scores.sum / scores.length

/-- Modelled from the spec: the Statistics Aggregator's
`lastUploadTimestamp` (§4.3) — backend code absent from the excerpt.
The maximum timestamp among records that have one, absent when none
does. -/
def lastUploadOf (l : List MemoryRecord) : Option Nat :=
  match l.filterMap (fun r => r.timestamp) with
  | [] => none
  | t :: ts => some (max t (natMaxL ts))

/-- Insertion step of a sort by decreasing timestamp. -/
def insertDesc (p : Nat × String) : List (Nat × String) → List (Nat × String)
  | [] => [p]
  | q :: qs => if q.1 ≤ p.1 then p :: q :: qs else q :: insertDesc p qs

/-- Insertion sort by decreasing timestamp (most recent first). -/
def sortDesc (l : List (Nat × String)) : List (Nat × String) :=
  l.foldr insertDesc []

/-- Modelled from the spec: the Statistics Aggregator's
`recentEmotions` (§4.3) — backend code absent from the excerpt. Up to
five emotion labels from the most-recently-timestamped records, most
recent first, skipping records with an absent emotion or an absent
timestamp. -/
def recentEmotionsOf (l : List MemoryRecord) : List String :=
  let pairs := l.filterMap fun r =>
    r.timestamp.bind fun t => r.emotion.map fun e => (t, e)
  ((sortDesc pairs).take 5).map Prod.snd

/-- The candidate text field the Search Matcher scans: the record's
effective text content (`text` falling back to `audio_text`, empty when
both are absent). -/
def searchText (m : MemoryRecord) : String :=
  jsOrS m.text (jsOrS m.audio_text "")

/-- Boolean substring test on character lists. -/
def isSubstr (needle : List Char) : List Char → Bool
  | [] => needle.isEmpty
  | c :: cs => needle.isPrefixOf (c :: cs) || isSubstr needle cs

/-- Modelled from the spec: the Search Matcher (§4.4) — backend code
absent from the excerpt. The query is case-folded; an empty or
whitespace-only query matches every record; otherwise the normalized
query must be a substring of the normalized candidate text field. -/
def searchMatches (q : String) (m : MemoryRecord) : Bool :=
  let nq := strLower q
  if nq.data.all Char.isWhitespace then true
  else isSubstr nq.data (strLower (searchText m)).data

/-- The search dimension of the compiled filter predicate: an absent
search entry matches every record, a present one delegates to the
Search Matcher. -/
def searchDim (oq : Option String) (m : MemoryRecord) : Bool :=
  match oq with
  | none => true
  | some q => searchMatches q m

/-! ## Helper lemmas -/

/-- `toLower` fixes whitespace characters. -/
theorem toLower_of_isWhitespace {c : Char} (h : c.isWhitespace = true) :
    c.toLower = c := by
  simp only [Char.isWhitespace, Bool.or_eq_true, decide_eq_true_eq] at h
  rcases h with ((h | h) | h) | h <;> subst h <;> decide

/-- Case-folding a blank string keeps it blank. -/
theorem strLower_blank {q : String} (h : q.data.all Char.isWhitespace = true) :
    (strLower q).data.all Char.isWhitespace = true := by
  show (q.data.map Char.toLower).all Char.isWhitespace = true
  rw [List.all_map]
  rw [List.all_eq_true] at h ⊢
  intro c hc
  have h1 := h c hc
  simp only [Function.comp_apply]
  rw [toLower_of_isWhitespace h1]
  exact h1

/-! ## Theorems -/

/-- C4: for the record in which every field except `id` is absent (and
the empty stats object), each display component computes its
documented per-field default instead of failing: the card shows
"Unknown" / "Unknown date" / "No content" and the neutral color, the
modal shows "Unknown date" / "Unknown" / "No content available" and
hides its optional sections, and the stats card shows all-zero/empty
defaults. -/
theorem memoryCard_modal_stats_graceful_defaults (fmt : Nat → String) :
    cardEmotionLabel emptyRecord = "Unknown" ∧
    getFormattedDate fmt emptyRecord = "Unknown date" ∧
    truncateText (getTextContent emptyRecord) 120 = "No content" ∧
    getEmotionColor emptyRecord.emotion = "bg-gray-50 border-gray-200" ∧
    topicsSectionShown emptyRecord = false ∧
    modalFormatDate fmt emptyRecord.timestamp = "Unknown date" ∧
    modalTextContent emptyRecord = "No content available" ∧
    modalEmotionLabel emptyRecord = "Unknown" ∧
    modalImportanceChip emptyRecord = none ∧
    modalTopicsSection emptyRecord = none ∧
    modalTagsSection emptyRecord = none ∧
    modalScoresSection emptyRecord = none ∧
    modalMetadataSection emptyRecord = none ∧
    statsTotalMemories emptyStats = 0 ∧
    statsTopEmotion emptyStats = "N/A" ∧
    statsTopTopic emptyStats = "N/A" ∧
    statsAvgImportance emptyStats = 0 ∧
    statsLastUploadDisplay fmt emptyStats = "Never" ∧
    statsRecentEmotions emptyStats = [] := by
  refine ⟨rfl, rfl, by decide, rfl, rfl, rfl, rfl, rfl, rfl, rfl, rfl,
    rfl, rfl, rfl, rfl, rfl, rfl, rfl, rfl⟩

/-- C5: a filter change rewrites exactly the chosen dimension and keeps
every other dimension of the previous configuration; resetting yields
the configuration with every dimension absent. -/
theorem handleFilterChange_frame (f : FilterConfiguration) (k v : String) :
    handleFilterChange f k v k = some v ∧
    (∀ k', k' ≠ k → handleFilterChange f k v k' = f k') ∧
    (∀ k', resetFilters k' = none) := by
  refine ⟨?_, ?_, fun _ => rfl⟩
  · simp [handleFilterChange]
  · intro k' h
    simp [handleFilterChange, h]

/-- Witness for C5 at a concrete configuration: changing `emotion`
installs the new value, leaves `topic` untouched, and reset clears
`search`. -/
theorem handleFilterChange_frame_witness :
    handleFilterChange (fun k => if k = "topic" then some "work" else none)
      "emotion" "happy" "emotion" = some "happy" ∧
    handleFilterChange (fun k => if k = "topic" then some "work" else none)
      "emotion" "happy" "topic" = some "work" ∧
    resetFilters "search" = none := by
  have h := handleFilterChange_frame
    (fun k => if k = "topic" then some "work" else none) "emotion" "happy"
  exact ⟨h.1, (h.2.1 "topic" (by decide)).trans (by decide), h.2.2 "search"⟩

/-- C9: the card's topic chips are a prefix of the record's topics (the
first ones, in original order); with more than 3 topics exactly 3 are
shown and the overflow chip counts the remaining ones; with at most 3
topics all are shown and there is no overflow chip. -/
theorem topics_first_three_with_overflow (ts : List String) :
    shownTopics ts <+: ts ∧
    shownTopics ts ++ ts.drop 3 = ts ∧
    (3 < ts.length →
      (shownTopics ts).length = 3 ∧
      topicsOverflow ts = some ((ts.drop 3).length)) ∧
    (ts.length ≤ 3 → shownTopics ts = ts ∧ topicsOverflow ts = none) := by
  refine ⟨List.take_prefix 3 ts, List.take_append_drop 3 ts, ?_, ?_⟩
  · intro h
    constructor
    · rw [shownTopics, List.length_take]
      omega
    · rw [topicsOverflow, if_pos h, List.length_drop]
  · intro h
    exact ⟨List.take_of_length_le h, by rw [topicsOverflow, if_neg (by omega)]⟩

/-- Witness for C9 at a five-topic list: three chips plus an overflow
count of 2. -/
theorem topics_first_three_with_overflow_witness :
    3 < (["a", "b", "c", "d", "e"] : List String).length ∧
    (shownTopics ["a", "b", "c", "d", "e"]).length = 3 ∧
    topicsOverflow ["a", "b", "c", "d", "e"] =
      some (((["a", "b", "c", "d", "e"] : List String).drop 3).length) :=
  ⟨by decide,
   ((topics_first_three_with_overflow ["a", "b", "c", "d", "e"]).2.2.1
     (by decide)).1,
   ((topics_first_three_with_overflow ["a", "b", "c", "d", "e"]).2.2.1
     (by decide)).2⟩

/-- C10: on any fetch failure `loadMemories` sets the error banner and
replaces whatever list was displayed with the fixed two-record demo
list (one happy, one sad, never empty), and `loadStats` substitutes the
fixed fallback summary built from the current list length. -/
theorem explorer_failure_fallback (prev : List MemoryRecord) (e : String)
    (n : Nat) :
    loadMemoriesStep prev (Except.error e) =
      { error := some "Failed to load memories. Please try again later.",
        memories :=
          [{ id := "1", emotion := some "happy",
             audio_text := some "This is a happy memory." },
           { id := "2", emotion := some "sad",
             audio_text := some "This is a sad memory." }] } ∧
    (loadMemoriesStep prev (Except.error e)).memories ≠ [] ∧
    loadStatsStep n (Except.error e) =
      { totalMemories := some n, topEmotion := some "unknown",
        avgImportance := some 0 } := by
  exact ⟨rfl, by simp [loadMemoriesStep, demoMemories], rfl⟩

/-- C3: an empty or whitespace-only search query matches every record,
so filtering a collection with such a query and filtering with the
search dimension absent both return the collection unchanged. -/
theorem blank_query_matches_all (q : String)
    (hq : q.data.all Char.isWhitespace = true) :
    (∀ m : MemoryRecord, searchMatches q m = true) ∧
    (∀ l : List MemoryRecord,
      l.filter (fun m => searchDim (some q) m) = l ∧
      l.filter (fun m => searchDim none m) = l) := by
  have hq' := strLower_blank hq
  have hmatch : ∀ m : MemoryRecord, searchMatches q m = true := by
    intro m
    unfold searchMatches
    simp [hq']
  refine ⟨hmatch, fun l => ⟨?_, ?_⟩⟩
  · rw [List.filter_eq_self]
    intro a _
    exact hmatch a
  · rw [List.filter_eq_self]
    intro a _
    rfl

/-- Witness for C3 at the three-space query: it matches the demo
records and leaves the demo collection untouched, like no filter. -/
theorem blank_query_matches_all_witness :
    ("   ".data.all Char.isWhitespace = true) ∧
    searchMatches "   " emptyRecord = true ∧
    demoMemories.filter (fun m => searchDim (some "   ") m) = demoMemories ∧
    demoMemories.filter (fun m => searchDim none m) = demoMemories :=
  ⟨by decide,
   (blank_query_matches_all "   " (by decide)).1 emptyRecord,
   ((blank_query_matches_all "   " (by decide)).2 demoMemories).1,
   ((blank_query_matches_all "   " (by decide)).2 demoMemories).2⟩

/-- The record of the spec's case-insensitivity example. -/
def morningRecord : MemoryRecord :=
  { id := "m", text := some "Morning Coffee" }

/-- C7: the Search Matcher is case-insensitive — the match result only
depends on the lower-casings of the query and of the record's candidate
text field, since both sides are case-folded before the substring
test. -/
theorem searchMatches_case_insensitive (q₁ q₂ : String)
    (m₁ m₂ : MemoryRecord) (hq : strLower q₁ = strLower q₂)
    (ht : strLower (searchText m₁) = strLower (searchText m₂)) :
    searchMatches q₁ m₁ = searchMatches q₂ m₂ := by
  simp only [searchMatches]
  rw [hq, ht]

/-- Witness for C7: re-casing the query `"coffee"` to `"COFFEE"` does
not change the match against "Morning Coffee", and the spec's two
example queries both match. -/
theorem searchMatches_case_insensitive_witness :
    strLower "COFFEE" = strLower "coffee" ∧
    searchMatches "COFFEE" morningRecord = searchMatches "coffee" morningRecord ∧
    searchMatches "COFFEE" morningRecord = true ∧
    searchMatches "morning" morningRecord = true :=
  ⟨by decide,
   searchMatches_case_insensitive "COFFEE" "coffee" morningRecord
     morningRecord (by decide) rfl,
   by decide, by decide⟩

/-- C6: the Collection Filter returns a subsequence of its input in the
same relative order, every output record satisfies the predicate, no
record is duplicated or dropped beyond the predicate (per-record
multiplicities of retained records are preserved), and the empty input
yields the empty output. -/
theorem filterCollection_stable (p : MemoryRecord → Bool)
    (l : List MemoryRecord) :
    List.Sublist (filterCollection p l) l ∧
    (∀ m ∈ filterCollection p l, p m = true) ∧
    (∀ m : MemoryRecord, p m = true →
      (filterCollection p l).count m = l.count m) ∧
    filterCollection p [] = [] := by
  refine ⟨List.filter_sublist l, fun m hm => List.of_mem_filter hm,
    fun m hm => List.count_filter hm, rfl⟩

/-- Witness for C6 at the happy-emotion predicate over the demo
collection. -/
theorem filterCollection_stable_witness :
    List.Sublist
      (filterCollection (fun m => m.emotion == some "happy") demoMemories)
      demoMemories ∧
    (∀ m ∈ filterCollection (fun m => m.emotion == some "happy")
      demoMemories, (m.emotion == some "happy") = true) ∧
    (filterCollection (fun m => m.emotion == some "happy")
      demoMemories).count
        { id := "1", emotion := some "happy",
          audio_text := some "This is a happy memory." } =
      demoMemories.count
        { id := "1", emotion := some "happy",
          audio_text := some "This is a happy memory." } :=
  ⟨(filterCollection_stable (fun m => m.emotion == some "happy")
      demoMemories).1,
   (filterCollection_stable (fun m => m.emotion == some "happy")
      demoMemories).2.1,
   (filterCollection_stable (fun m => m.emotion == some "happy")
      demoMemories).2.2.1 _ (by decide)⟩

/-- The sum of the present importance scores equals the fold that adds
each record's score when present and nothing when absent. -/
theorem filterMap_importance_sum (l : List MemoryRecord) :
    (l.filterMap (fun r => r.importance_score)).sum =
    l.foldr (fun r acc => (r.importance_score).getD 0 + acc) 0 := by
  induction l with
  | nil => rfl
  | cons r t ih =>
    rw [List.filterMap_cons]
    cases h : r.importance_score with
    | none => simp [h, ih]
    | some s => simp [h, ih]

/-- The number of present importance scores equals the count of records
carrying the field. -/
theorem filterMap_importance_length (l : List MemoryRecord) :
    (l.filterMap (fun r => r.importance_score)).length =
    l.countP (fun r => (r.importance_score).isSome) := by
  induction l with
  | nil => rfl
  | cons r t ih =>
    rw [List.filterMap_cons, List.countP_cons]
    cases h : r.importance_score with
    | none => simp [h, ih]
    | some s => simp [h, ih]

/-- C2: `avgImportance` is the arithmetic mean over exactly the records
carrying `importance_score` — records without the field contribute to
neither the numerator (the fold adds nothing for them) nor the
denominator (the count only counts present fields) — and is exactly 0
when no record carries the field. -/
theorem avgImportance_mean_of_present (l : List MemoryRecord) :
    (l.countP (fun r => (r.importance_score).isSome) = 0 →
      avgImportanceOf l = 0) ∧
    (l.countP (fun r => (r.importance_score).isSome) ≠ 0 →
      avgImportanceOf l *
        (l.countP (fun r => (r.importance_score).isSome) : ℚ) =
      l.foldr (fun r acc => (r.importance_score).getD 0 + acc) 0) := by
  constructor
  · intro h
    have h' : (l.filterMap (fun r => r.importance_score)).length = 0 := by
      rw [filterMap_importance_length]
      exact h
    simp [avgImportanceOf, h']
  · intro h
    have h' : (l.filterMap (fun r => r.importance_score)).length ≠ 0 := by
      rw [filterMap_importance_length]
      exact h
    unfold avgImportanceOf
    rw [if_neg h', ← filterMap_importance_sum, ← filterMap_importance_length]
    exact div_mul_cancel₀ _ (Nat.cast_ne_zero.mpr h')

/-- Witness for C2: a scoreless collection averages to exactly 0, and
over records scored 1/2 and 1/4 with one unscored record the mean
times the a-score count 2 gives the sum 3/4. -/
theorem avgImportance_mean_of_present_witness :
    ([emptyRecord].countP (fun r => (r.importance_score).isSome) = 0 ∧
      avgImportanceOf [emptyRecord] = 0) ∧
    (([{ id := "a", importance_score := some (1/2) }, emptyRecord,
       { id := "b", importance_score := some (1/4) }] :
        List MemoryRecord).countP
          (fun r => (r.importance_score).isSome) ≠ 0 ∧
     avgImportanceOf [{ id := "a", importance_score := some (1/2) },
        emptyRecord, { id := "b", importance_score := some (1/4) }] *
       (([{ id := "a", importance_score := some (1/2) }, emptyRecord,
          { id := "b", importance_score := some (1/4) }] :
           List MemoryRecord).countP
             (fun r => (r.importance_score).isSome) : ℚ) =
      ([{ id := "a", importance_score := some (1/2) }, emptyRecord,
        { id := "b", importance_score := some (1/4) }] :
         List MemoryRecord).foldr
        (fun r acc => (r.importance_score).getD 0 + acc) 0) :=
  ⟨⟨by decide, (avgImportance_mean_of_present [emptyRecord]).1 (by decide)⟩,
   ⟨by decide,
    (avgImportance_mean_of_present
      [{ id := "a", importance_score := some (1/2) }, emptyRecord,
       { id := "b", importance_score := some (1/4) }]).2 (by decide)⟩⟩

/-- A record used as context in the C8 witness: timestamped and
tagged. -/
def calmRecord : MemoryRecord :=
  { id := "t", timestamp := some 100, emotion := some "calm" }

/-- C8: a record with an absent timestamp renders the "Unknown date"
default in both the card and the modal, and is invisible to the
recency aggregates — removing it from any position of the collection
changes neither `lastUploadTimestamp` nor `recentEmotions`. -/
theorem absent_timestamp_default_and_excluded (m : MemoryRecord)
    (hm : m.timestamp = none) (fmt : Nat → String)
    (l₁ l₂ : List MemoryRecord) :
    getFormattedDate fmt m = "Unknown date" ∧
    modalFormatDate fmt m.timestamp = "Unknown date" ∧
    lastUploadOf (l₁ ++ m :: l₂) = lastUploadOf (l₁ ++ l₂) ∧
    recentEmotionsOf (l₁ ++ m :: l₂) = recentEmotionsOf (l₁ ++ l₂) := by
  refine ⟨?_, ?_, ?_, ?_⟩
  · unfold getFormattedDate
    rw [hm]
  · unfold modalFormatDate
    rw [hm]
  · have key : (l₁ ++ m :: l₂).filterMap (fun r => r.timestamp) =
        (l₁ ++ l₂).filterMap (fun r => r.timestamp) := by
      simp [List.filterMap_append, List.filterMap_cons, hm]
    unfold lastUploadOf
    rw [key]
  · have key : (l₁ ++ m :: l₂).filterMap
        (fun r => r.timestamp.bind fun t => r.emotion.map fun e => (t, e)) =
        (l₁ ++ l₂).filterMap
        (fun r => r.timestamp.bind fun t => r.emotion.map fun e => (t, e)) := by
      simp [List.filterMap_append, List.filterMap_cons, hm]
    unfold recentEmotionsOf
    rw [key]

/-- Witness for C8: the id-only record has no timestamp, shows "Unknown
date", and dropping it leaves the aggregates over a timestamped
neighbour unchanged. -/
theorem absent_timestamp_default_and_excluded_witness :
    emptyRecord.timestamp = none ∧
    getFormattedDate (fun t => toString t) emptyRecord = "Unknown date" ∧
    lastUploadOf ([calmRecord] ++ emptyRecord :: []) =
      lastUploadOf ([calmRecord] ++ []) ∧
    recentEmotionsOf ([calmRecord] ++ emptyRecord :: []) =
      recentEmotionsOf ([calmRecord] ++ []) :=
  ⟨rfl,
   (absent_timestamp_default_and_excluded emptyRecord rfl
     (fun t => toString t) [calmRecord] []).1,
   (absent_timestamp_default_and_excluded emptyRecord rfl
     (fun t => toString t) [calmRecord] []).2.2.1,
   (absent_timestamp_default_and_excluded emptyRecord rfl
     (fun t => toString t) [calmRecord] []).2.2.2⟩

/-- Every member of a list of naturals is bounded by `natMaxL`. -/
theorem natMaxL_ge : ∀ (ns : List Nat), ∀ n ∈ ns, n ≤ natMaxL ns := by
  intro ns
  induction ns with
  | nil =>
    intro n h
    cases h
  | cons x xs ih =>
    intro n h
    show n ≤ max x (natMaxL xs)
    rcases List.mem_cons.mp h with h | h
    · subst h
      exact Nat.le_max_left _ _
    · exact le_trans (ih n h) (Nat.le_max_right _ _)

/-- `natMaxL` of a nonempty list is attained by one of its members. -/
theorem natMaxL_mem : ∀ (ns : List Nat), ns ≠ [] → natMaxL ns ∈ ns := by
  intro ns
  induction ns with
  | nil =>
    intro h
    exact absurd rfl h
  | cons x xs ih =>
    intro _
    show max x (natMaxL xs) ∈ x :: xs
    rcases eq_or_ne xs [] with h | h
    · subst h
      simp [natMaxL]
    · rcases Nat.le_total (natMaxL xs) x with hle | hle
      · rw [Nat.max_eq_left hle]
        exact List.mem_cons_self x xs
      · rw [Nat.max_eq_right hle]
        exact List.mem_cons_of_mem x (ih h)

/-- No label occurs more often than `maxCount` says. -/
theorem count_le_maxCount (l : List String) : ∀ e ∈ l, l.count e ≤ maxCount l := by
  intro e he
  exact natMaxL_ge _ _ (List.mem_map_of_mem (fun x => l.count x) he)

/-- In a nonempty list some label attains the maximal count. -/
theorem exists_count_eq_maxCount {l : List String} (h : l ≠ []) :
    ∃ e ∈ l, l.count e = maxCount l := by
  have h1 : l.map (fun x => l.count x) ≠ [] := by
    simp [h]
  have h2 := natMaxL_mem _ h1
  rcases List.mem_map.mp h2 with ⟨e, he, heq⟩
  exact ⟨e, he, heq⟩

/-- `find?` splits its list at the found element, with every earlier
element failing the predicate. -/
theorem find?_decomp {α : Type} {p : α → Bool} :
    ∀ {l : List α} {t : α}, l.find? p = some t →
      ∃ l₁ l₂, l = l₁ ++ t :: l₂ ∧ ∀ x ∈ l₁, p x = false := by
  intro l
  induction l with
  | nil =>
    intro t h
    cases h
  | cons a as ih =>
    intro t h
    by_cases hp : p a = true
    · rw [List.find?_cons_of_pos _ hp] at h
      cases h
      exact ⟨[], as, rfl, by intro x hx; cases hx⟩
    · have hp' : p a = false := by
        cases hb : p a
        · rfl
        · exact absurd hb hp
      rw [List.find?_cons_of_neg _ hp] at h
      rcases ih h with ⟨l₁, l₂, heq, hall⟩
      refine ⟨a :: l₁, l₂, by rw [heq]; rfl, ?_⟩
      intro x hx
      rcases List.mem_cons.mp hx with hx | hx
      · subst hx
        exact hp'
      · exact hall x hx

/-- The first-maximal-count selection behind `topEmotionOf`: on a
nonempty label list it returns a label of maximal occurrence count such
that every label occurring before it in collection order has a strictly
smaller count. -/
theorem firstMax_spec (es : List String) (h : es ≠ []) :
    ∃ t, firstMax es = some t ∧ t ∈ es ∧
      (∀ e ∈ es, es.count e ≤ es.count t) ∧
      ∃ l₁ l₂, es = l₁ ++ t :: l₂ ∧ ∀ e ∈ l₁, es.count e < es.count t := by
  obtain ⟨x, hx, hcx⟩ := exists_count_eq_maxCount h
  have hsome : (es.find? (fun z => es.count z == maxCount es)).isSome := by
    rw [List.find?_isSome]
    exact ⟨x, hx, by simp [hcx]⟩
  obtain ⟨t, ht⟩ := Option.isSome_iff_exists.mp hsome
  have hpt := List.find?_some ht
  have hct : es.count t = maxCount es := by
    simpa using hpt
  refine ⟨t, ht, List.mem_of_find?_eq_some ht, ?_, ?_⟩
  · intro e he
    rw [hct]
    exact count_le_maxCount es e he
  · obtain ⟨l₁, l₂, heq, hall⟩ := find?_decomp ht
    refine ⟨l₁, l₂, heq, fun e he => ?_⟩
    have hne : ¬ (es.count e = maxCount es) := by
      have hfe := hall e he
      simpa using hfe
    have hle : es.count e ≤ maxCount es := by
      refine count_le_maxCount es e ?_
      rw [heq]
      exact List.mem_append_left _ he
    rw [hct]
    omega

/-- C1: over any record collection, `topEmotion` is `"N/A"` when no
record has an emotion; otherwise it is an emotion occurring in the
collection whose occurrence count (among records with a non-absent
emotion) is maximal, and every emotion occurring before it in
collection order has a strictly smaller count — so ties go to the
label appearing first. -/
theorem topEmotion_first_mode (l : List MemoryRecord) :
    (l.filterMap (fun r => r.emotion) = [] → topEmotionOf l = "N/A") ∧
    (l.filterMap (fun r => r.emotion) ≠ [] →
      ∃ t, topEmotionOf l = t ∧
        t ∈ l.filterMap (fun r => r.emotion) ∧
        (∀ e ∈ l.filterMap (fun r => r.emotion),
          (l.filterMap (fun r => r.emotion)).count e ≤
            (l.filterMap (fun r => r.emotion)).count t) ∧
        ∃ l₁ l₂, l.filterMap (fun r => r.emotion) = l₁ ++ t :: l₂ ∧
          ∀ e ∈ l₁, (l.filterMap (fun r => r.emotion)).count e <
            (l.filterMap (fun r => r.emotion)).count t) := by
  constructor
  · intro h
    unfold topEmotionOf firstMax
    rw [h]
    rfl
  · intro h
    obtain ⟨t, ht, hmem, hmax, hfirst⟩ :=
      firstMax_spec (l.filterMap (fun r => r.emotion)) h
    refine ⟨t, ?_, hmem, hmax, hfirst⟩
    unfold topEmotionOf
    rw [ht]
    rfl

/-- Witness for C1 at the spec's tie-break scenario (two happy records
before one sad record): the theorem applies, and the top emotion
evaluates to "happy". -/
theorem topEmotion_first_mode_witness :
    (([{ id := "1", emotion := some "happy" },
       { id := "2", emotion := some "happy" },
       { id := "3", emotion := some "sad" }] :
        List MemoryRecord).filterMap (fun r => r.emotion) ≠ []) ∧
    (∃ t, topEmotionOf [{ id := "1", emotion := some "happy" },
        { id := "2", emotion := some "happy" },
        { id := "3", emotion := some "sad" }] = t ∧
      t ∈ ([{ id := "1", emotion := some "happy" },
        { id := "2", emotion := some "happy" },
        { id := "3", emotion := some "sad" }] :
          List MemoryRecord).filterMap (fun r => r.emotion) ∧
      (∀ e ∈ ([{ id := "1", emotion := some "happy" },
          { id := "2", emotion := some "happy" },
          { id := "3", emotion := some "sad" }] :
            List MemoryRecord).filterMap (fun r => r.emotion),
        (([{ id := "1", emotion := some "happy" },
          { id := "2", emotion := some "happy" },
          { id := "3", emotion := some "sad" }] :
            List MemoryRecord).filterMap (fun r => r.emotion)).count e ≤
        (([{ id := "1", emotion := some "happy" },
          { id := "2", emotion := some "happy" },
          { id := "3", emotion := some "sad" }] :
            List MemoryRecord).filterMap (fun r => r.emotion)).count t) ∧
      ∃ l₁ l₂, ([{ id := "1", emotion := some "happy" },
          { id := "2", emotion := some "happy" },
          { id := "3", emotion := some "sad" }] :
            List MemoryRecord).filterMap (fun r => r.emotion) =
          l₁ ++ t :: l₂ ∧
        ∀ e ∈ l₁, (([{ id := "1", emotion := some "happy" },
          { id := "2", emotion := some "happy" },
          { id := "3", emotion := some "sad" }] :
            List MemoryRecord).filterMap (fun r => r.emotion)).count e <
          (([{ id := "1", emotion := some "happy" },
            { id := "2", emotion := some "happy" },
            { id := "3", emotion := some "sad" }] :
              List MemoryRecord).filterMap (fun r => r.emotion)).count t) ∧
    topEmotionOf [{ id := "1", emotion := some "happy" },
      { id := "2", emotion := some "happy" },
      { id := "3", emotion := some "sad" }] = "happy" :=
  ⟨by decide,
   (topEmotion_first_mode [{ id := "1", emotion := some "happy" },
     { id := "2", emotion := some "happy" },
     { id := "3", emotion := some "sad" }]).2 (by decide),
   by decide⟩
